import Mathlib

/-!
Verification of the string-similarity metrics of
`Negishio66/IntroductionDataSciencePython` (Exercise 3).

The repository ships only the notebook driver
`src/Exercise3/s1282009_exercise3.ipynb`; the three metric modules it
imports (`Similarity/hamming_distance.py`, `Similarity/jaccard_coefficient.py`,
`Similarity/overlap_coefficient.py`) are absent, so those functions are
modelled from the specification.  Python strings become `String`, Python
sets of characters become `Finset Char`, float results become `Rat`
(the values involved are small exact rationals), and a value-error-style
exception becomes the `Except.error` branch of `Except String _`.
-/

namespace StringSim

/-- Modelled from the spec: the character set of a string — the set of
distinct characters appearing in the string, order-independent and
duplicate-free (§3, glossary).  The `Similarity/` modules that build these
sets are missing from the repository. -/
def charset (s : String) : Finset Char := s.toList.toFinset

/-- Modelled from the spec: division producing a float, as in Python, where
a zero denominator raises a division error rather than returning a value.
Used by the set-based metrics, whose zero-denominator edge cases must be
resolved before dividing (§4.2, §4.3). -/
def divOrErr (n d : ℕ) : Except String ℚ :=
  if d = 0 then Except.error "division by zero" else Except.ok ((n : ℚ) / (d : ℚ))

/-- Modelled from the spec: the mismatch counter of `calculate_hamming_distance`
— a single linear scan over paired positions, incrementing a counter on
mismatch (§4.1). -/
def hammingCount : List Char → List Char → ℕ
  | a :: as, b :: bs => (if a ≠ b then 1 else 0) + hammingCount as bs
  | _, _ => 0

/-- Modelled from the spec: `calculate_hamming_distance` from the missing
`Similarity/hamming_distance.py`.  If the lengths differ it fails with a
value-error-style exception rather than truncating or padding (§4.1, §7);
otherwise it returns the mismatch count. -/
def calculate_hamming_distance (a b : String) : Except String ℕ :=
  if a.length = b.length then Except.ok (hammingCount a.toList b.toList)
  else Except.error "Strings must be of equal length"

/-- Modelled from the spec: `calculate_string_jaccard` from the missing
`Similarity/jaccard_coefficient.py`.  Computes intersection-over-union of
the two character sets (§4.2); the empty-union edge case is resolved by the
convention of returning 0 before dividing, so the function never raises (§7). -/
def calculate_string_jaccard (a b : String) : Except String ℚ :=
  let u := (charset a ∪ charset b).card
  if u = 0 then Except.ok 0 else divOrErr (charset a ∩ charset b).card u

/-- Modelled from the spec: `calculate_string_overlap` from the missing
`Similarity/overlap_coefficient.py`.  Computes intersection over the smaller
character-set cardinality (§4.3); the zero-denominator edge case is resolved
by the convention of returning 0 before dividing, so the function never
raises (§7). -/
def calculate_string_overlap (a b : String) : Except String ℚ :=
  let m := min (charset a).card (charset b).card
  if m = 0 then Except.ok 0 else divOrErr (charset a ∩ charset b).card m

/-- The notebook driver (cells 2–3 of `s1282009_exercise3.ipynb`): inside a
single try block it computes the Jaccard coefficient of `"suspicious"` and
`"delicious"`, then their overlap coefficient, then the Hamming distance of
`"naphthalising"` and `"objectivising"`; a raised value error would abort the
sequence and reach the except handler. -/
def driverResults : Except String (ℚ × ℚ × ℕ) := do
  let j ← calculate_string_jaccard "suspicious" "delicious"
  let o ← calculate_string_overlap "suspicious" "delicious"
  let h ← calculate_hamming_distance "naphthalising" "objectivising"
  return (j, o, h)


theorem hammingCount_eq : ∀ (as bs : List Char), as.length = bs.length →
    hammingCount as bs =
      ((List.range as.length).filter
        (fun i => as.getD i default ≠ bs.getD i default)).length
  | [], [], _ => rfl
  | [], _ :: _, h => absurd h (by simp)
  | _ :: _, [], h => absurd h (by simp)
  | a :: as, b :: bs, h => by
    have hlen : as.length = bs.length := by simpa using h
    have ih := hammingCount_eq as bs hlen
    simp only [hammingCount, List.length_cons, List.range_succ_eq_map,
      List.filter_cons, List.getD_cons_zero, List.filter_map,
      Function.comp_def, List.getD_cons_succ, Nat.succ_eq_add_one]
    by_cases hab : a = b
    · simp [hab, ih]
    · simp [hab, ih]
      omega


theorem jaccard_ok_bounds (a b : String) :
    ∃ q : ℚ, calculate_string_jaccard a b = Except.ok q ∧ 0 ≤ q ∧ q ≤ 1 := by
  by_cases h : (charset a ∪ charset b).card = 0
  · exact ⟨0, by simp [calculate_string_jaccard, h], le_refl 0, by norm_num⟩
  · have hpos : (0 : ℚ) < ((charset a ∪ charset b).card : ℚ) :=
      Nat.cast_pos.mpr (Nat.pos_of_ne_zero h)
    refine ⟨((charset a ∩ charset b).card : ℚ) / ((charset a ∪ charset b).card : ℚ),
      by simp [calculate_string_jaccard, divOrErr, h], ?_, ?_⟩
    · exact div_nonneg (Nat.cast_nonneg _) (le_of_lt hpos)
    · exact (div_le_one hpos).mpr
        (Nat.cast_le.mpr (Finset.card_le_card Finset.inter_subset_union))

theorem overlap_ok_bounds (a b : String) :
    ∃ q : ℚ, calculate_string_overlap a b = Except.ok q ∧ 0 ≤ q ∧ q ≤ 1 := by
  by_cases h : min (charset a).card (charset b).card = 0
  · exact ⟨0, by simp [calculate_string_overlap, h], le_refl 0, by norm_num⟩
  · have hpos : (0 : ℚ) < ((min (charset a).card (charset b).card : ℕ) : ℚ) :=
      Nat.cast_pos.mpr (Nat.pos_of_ne_zero h)
    refine ⟨((charset a ∩ charset b).card : ℚ) /
        ((min (charset a).card (charset b).card : ℕ) : ℚ),
      ?_, ?_, ?_⟩
    · simp only [calculate_string_overlap, divOrErr, h, if_false, if_neg h]
    · exact div_nonneg (Nat.cast_nonneg _) (le_of_lt hpos)
    · refine (div_le_one hpos).mpr (Nat.cast_le.mpr (le_min ?_ ?_))
      · exact Finset.card_le_card Finset.inter_subset_left
      · exact Finset.card_le_card Finset.inter_subset_right

theorem charset_nonempty {a : String} (h : a ≠ "") : (charset a).Nonempty := by
  cases a with
  | mk data =>
    cases data with
    | nil => exact absurd (by rfl) h
    | cons c cs => exact ⟨c, by simp [charset, String.toList]⟩

theorem jaccard_comm (a b : String) :
    calculate_string_jaccard a b = calculate_string_jaccard b a := by
  simp only [calculate_string_jaccard]
  rw [Finset.union_comm, Finset.inter_comm]

theorem jaccard_self_nonempty {a : String} (h : a ≠ "") :
    calculate_string_jaccard a a = Except.ok 1 := by
  have hne : (charset a).card ≠ 0 := by
    have := Finset.card_pos.mpr (charset_nonempty h)
    omega
  simp [calculate_string_jaccard, divOrErr, Finset.union_self, Finset.inter_self, hne,
    div_self (Nat.cast_ne_zero.mpr hne : ((charset a).card : ℚ) ≠ 0)]


/-- Claim C1: for every pair of strings of unequal length,
`calculate_hamming_distance` fails with a value-error-style exception rather
than returning a partial, truncated, padded, or default value; for
equal-length inputs it does not raise. -/
theorem hamming_length_precondition :
    (∀ a b : String, a.length ≠ b.length →
      ∃ e : String, calculate_hamming_distance a b = Except.error e) ∧
    (∀ a b : String, a.length = b.length →
      ∃ n : ℕ, calculate_hamming_distance a b = Except.ok n) := by
  constructor
  · intro a b h
    exact ⟨"Strings must be of equal length", by simp [calculate_hamming_distance, h]⟩
  · intro a b h
    exact ⟨hammingCount a.toList b.toList, by simp [calculate_hamming_distance, h]⟩

/-- Witness for C1 at concrete inputs of unequal and of equal length. -/
theorem hamming_length_precondition_witness :
    (∃ e : String, calculate_hamming_distance "ab" "abc" = Except.error e) ∧
    (∃ n : ℕ, calculate_hamming_distance "ab" "cd" = Except.ok n) :=
  ⟨hamming_length_precondition.1 "ab" "abc" (by decide),
   hamming_length_precondition.2 "ab" "cd" (by decide)⟩

/-- Claim C2: for equal-length strings, `calculate_hamming_distance` returns
exactly the count of index positions at which the two strings hold different
characters. -/
theorem hamming_counts_mismatch_positions (a b : String) (h : a.length = b.length) :
    calculate_hamming_distance a b =
      Except.ok (((List.range a.length).filter
        (fun i => a.toList.getD i default ≠ b.toList.getD i default)).length) := by
  have hl : a.toList.length = b.toList.length := h
  rw [calculate_hamming_distance, if_pos h, hammingCount_eq a.toList b.toList hl]
  rfl

/-- Witness for C2 at concrete equal-length inputs. -/
theorem hamming_counts_mismatch_positions_witness :
    calculate_hamming_distance "abc" "axc" =
      Except.ok (((List.range ("abc" : String).length).filter
        (fun i => ("abc" : String).toList.getD i default ≠
          ("axc" : String).toList.getD i default)).length) :=
  hamming_counts_mismatch_positions "abc" "axc" rfl

/-- Claim C3: the two set-based metrics never raise for any pair of strings,
empty strings included; the zero-denominator edge cases return the
conventional value 0 instead of raising a division error. -/
theorem similarity_never_raises :
    (∀ a b : String, ∃ q : ℚ, calculate_string_jaccard a b = Except.ok q) ∧
    (∀ a b : String, ∃ q : ℚ, calculate_string_overlap a b = Except.ok q) ∧
    calculate_string_jaccard "" "" = Except.ok 0 ∧
    (∀ b : String, calculate_string_overlap "" b = Except.ok 0 ∧
      calculate_string_overlap b "" = Except.ok 0) := by
  refine ⟨fun a b => ?_, fun a b => ?_, ?_, fun b => ⟨?_, ?_⟩⟩
  · obtain ⟨q, hq, -, -⟩ := jaccard_ok_bounds a b
    exact ⟨q, hq⟩
  · obtain ⟨q, hq, -, -⟩ := overlap_ok_bounds a b
    exact ⟨q, hq⟩
  · rfl
  · have hm : min (charset "").card (charset b).card = 0 := by
      have h0 : (charset "").card = 0 := rfl
      simp [h0]
    simp [calculate_string_overlap, hm]
  · have hm : min (charset b).card (charset "").card = 0 := by
      have h0 : (charset "").card = 0 := rfl
      simp [h0]
    simp [calculate_string_overlap, hm]

/-- Claim C4: when the union of the two character sets is nonempty,
`calculate_string_jaccard` returns exactly
|charset(A) ∩ charset(B)| / |charset(A) ∪ charset(B)|, a value in [0, 1]. -/
theorem jaccard_formula (a b : String) (h : (charset a ∪ charset b).Nonempty) :
    calculate_string_jaccard a b =
      Except.ok (((charset a ∩ charset b).card : ℚ) /
        ((charset a ∪ charset b).card : ℚ)) ∧
    0 ≤ ((charset a ∩ charset b).card : ℚ) / ((charset a ∪ charset b).card : ℚ) ∧
    ((charset a ∩ charset b).card : ℚ) / ((charset a ∪ charset b).card : ℚ) ≤ 1 := by
  have hne : (charset a ∪ charset b).card ≠ 0 := by
    have := Finset.card_pos.mpr h
    omega
  have hpos : (0 : ℚ) < ((charset a ∪ charset b).card : ℚ) :=
    Nat.cast_pos.mpr (Nat.pos_of_ne_zero hne)
  exact ⟨by simp [calculate_string_jaccard, divOrErr, hne],
    div_nonneg (Nat.cast_nonneg _) (le_of_lt hpos),
    (div_le_one hpos).mpr (Nat.cast_le.mpr (Finset.card_le_card Finset.inter_subset_union))⟩

/-- Witness for C4 at concrete inputs with a nonempty character-set union. -/
theorem jaccard_formula_witness :
    calculate_string_jaccard "ab" "b" =
      Except.ok (((charset "ab" ∩ charset "b").card : ℚ) /
        ((charset "ab" ∪ charset "b").card : ℚ)) ∧
    0 ≤ ((charset "ab" ∩ charset "b").card : ℚ) / ((charset "ab" ∪ charset "b").card : ℚ) ∧
    ((charset "ab" ∩ charset "b").card : ℚ) / ((charset "ab" ∪ charset "b").card : ℚ) ≤ 1 :=
  jaccard_formula "ab" "b" ⟨'a', by decide⟩

/-- Claim C5: when both character sets are nonempty,
`calculate_string_overlap` returns exactly
|charset(A) ∩ charset(B)| / min(|charset(A)|, |charset(B)|), a value in [0, 1]. -/
theorem overlap_formula (a b : String)
    (ha : (charset a).Nonempty) (hb : (charset b).Nonempty) :
    calculate_string_overlap a b =
      Except.ok (((charset a ∩ charset b).card : ℚ) /
        ((min (charset a).card (charset b).card : ℕ) : ℚ)) ∧
    0 ≤ ((charset a ∩ charset b).card : ℚ) /
        ((min (charset a).card (charset b).card : ℕ) : ℚ) ∧
    ((charset a ∩ charset b).card : ℚ) /
        ((min (charset a).card (charset b).card : ℕ) : ℚ) ≤ 1 := by
  have hane := Finset.card_pos.mpr ha
  have hbne := Finset.card_pos.mpr hb
  have hne : min (charset a).card (charset b).card ≠ 0 := by omega
  have hpos : (0 : ℚ) < ((min (charset a).card (charset b).card : ℕ) : ℚ) :=
    Nat.cast_pos.mpr (Nat.pos_of_ne_zero hne)
  refine ⟨by simp only [calculate_string_overlap, divOrErr, if_neg hne],
    div_nonneg (Nat.cast_nonneg _) (le_of_lt hpos),
    (div_le_one hpos).mpr (Nat.cast_le.mpr (le_min ?_ ?_))⟩
  · exact Finset.card_le_card Finset.inter_subset_left
  · exact Finset.card_le_card Finset.inter_subset_right

/-- Witness for C5 at concrete inputs with nonempty character sets. -/
theorem overlap_formula_witness :
    calculate_string_overlap "ab" "b" =
      Except.ok (((charset "ab" ∩ charset "b").card : ℚ) /
        ((min (charset "ab").card (charset "b").card : ℕ) : ℚ)) ∧
    0 ≤ ((charset "ab" ∩ charset "b").card : ℚ) /
        ((min (charset "ab").card (charset "b").card : ℕ) : ℚ) ∧
    ((charset "ab" ∩ charset "b").card : ℚ) /
        ((min (charset "ab").card (charset "b").card : ℕ) : ℚ) ≤ 1 :=
  overlap_formula "ab" "b" ⟨'a', by decide⟩ ⟨'b', by decide⟩

/-- Claim C6: the Hamming distance of the notebook example pair
"naphthalising" and "objectivising" is exactly 8. -/
theorem hamming_given_scenario :
    calculate_hamming_distance "naphthalising" "objectivising" = Except.ok 8 := by
  rfl

/-- Claim C7: the Jaccard coefficient of "suspicious" and "delicious" lies
within 1e-4 of 0.5556 (the exact value is 5/9). -/
theorem jaccard_given_scenario :
    ∃ q : ℚ, calculate_string_jaccard "suspicious" "delicious" = Except.ok q ∧
      |q - 5556 / 10000| ≤ 1 / 10000 :=
  ⟨5 / 9, by rfl, by norm_num [abs_le]⟩

/-- Claim C8: the overlap coefficient of "suspicious" and "delicious" lies
within 1e-4 of 0.8333 (the exact value is 5/6). -/
theorem overlap_given_scenario :
    ∃ q : ℚ, calculate_string_overlap "suspicious" "delicious" = Except.ok q ∧
      |q - 8333 / 10000| ≤ 1 / 10000 :=
  ⟨5 / 6, by rfl, by norm_num [abs_le]⟩

/-- Claim C9: the Jaccard coefficient is symmetric in its arguments, always
yields a value in [0, 1], and equals 1 on any pair of identical non-empty
strings. -/
theorem jaccard_algebraic_properties :
    (∀ a b : String, calculate_string_jaccard a b = calculate_string_jaccard b a) ∧
    (∀ a b : String, ∃ q : ℚ, calculate_string_jaccard a b = Except.ok q ∧
      0 ≤ q ∧ q ≤ 1) ∧
    (∀ a : String, a ≠ "" → calculate_string_jaccard a a = Except.ok 1) :=
  ⟨jaccard_comm, jaccard_ok_bounds, fun _ ha => jaccard_self_nonempty ha⟩

/-- Witness for C9 at concrete inputs. -/
theorem jaccard_algebraic_properties_witness :
    calculate_string_jaccard "ab" "cd" = calculate_string_jaccard "cd" "ab" ∧
    (∃ q : ℚ, calculate_string_jaccard "ab" "cd" = Except.ok q ∧ 0 ≤ q ∧ q ≤ 1) ∧
    calculate_string_jaccard "ab" "ab" = Except.ok 1 :=
  ⟨jaccard_algebraic_properties.1 "ab" "cd",
   jaccard_algebraic_properties.2.1 "ab" "cd",
   jaccard_algebraic_properties.2.2 "ab" (by decide)⟩

/-- Claim C10: in the notebook driver's recorded execution the value-error
handler is unreachable — the fixed Hamming inputs both have length 13, so
the whole try block succeeds and all three results are produced (Jaccard
5/9 ≈ 0.5556, overlap 5/6 ≈ 0.8333, Hamming distance 8). -/
theorem driver_handler_unreachable :
    driverResults = Except.ok (5 / 9, 5 / 6, 8) ∧
    ("naphthalising" : String).length = 13 ∧
    ("objectivising" : String).length = 13 :=
  ⟨rfl, rfl, rfl⟩

end StringSim
